import Mathlib

/-!
Shallow embedding of the Notes Store (`store.js`) of the note-keeper app.

The store is a single-process state container with actions `loadNotes`,
`addNote`, `updateNote`, `deleteNote`, `selectNote`, selector `sortedNotes`,
a loading/error protocol (`_runAsync`), and optional localStorage persistence
(`_emit` writes the whole state blob under a fixed key when no API is
configured).

Modelling conventions:
- JS strings/numbers are Lean `String`/`Int`; `null`/`undefined` is `Option`.
- An action's returned promise is `Except String ρ`: `Except.error msg` is a
  rejected promise, `Except.ok v` a promise resolved with `v`.
- Backend I/O (`apiFetch` results) is passed in as an oracle argument of type
  `Except String _`: `Except.error m` models a fetch that throws an error with
  message `m`, `Except.ok data` a fetch resolving to `data`.
- `uid()` / `Date.now()` results are passed in as arguments (`genId`, `now`).
- Each action returns the final `World` (store state plus the localStorage
  blob), the list of state snapshots emitted by `_emit` during the action, in
  order, and the settled promise value.
-/

namespace NotesApp

/-- Canonical note record, the element type of `state.notes` in `store.js`. -/
structure Note where
  id : String
  title : String
  content : String
  createdAt : Int
  updatedAt : Int
deriving Repr, DecidableEq

/-- The store state shape: `{ notes, selectedNoteId, loading, error }`. -/
structure StoreState where
  notes : List Note
  selectedNoteId : Option String
  loading : Bool
  error : Option String
deriving Repr, DecidableEq

/-- `defaultState` from `store.js`. -/
def defaultState : StoreState :=
  { notes := [], selectedNoteId := none, loading := false, error := none }

/-- Startup initialization: `initialState = { ...defaultState, ...persisted }`
when a persisted blob exists in local mode, else the defaults.  The blobs this
app writes always carry all four state fields, so the spread is the blob. -/
def initialState (persisted : Option StoreState) : StoreState :=
  match persisted with
  | some p => p
  | none => defaultState

/-- The world of one store: its in-memory state plus the localStorage blob
stored under the fixed key `notes_store_v1` (`none` when the key is absent). -/
structure World where
  state : StoreState
  storage : Option StoreState
deriving Repr, DecidableEq

/-- `const message = e && e.message ? e.message : 'Unknown error'` in
`_runAsync`: an empty (falsy) message is replaced by `'Unknown error'`. -/
def errMessage (m : String) : String :=
  if m = "" then "Unknown error" else m

/-- `_emit()`: when no API is configured, writes the whole current state blob
to localStorage; then notifies subscribers with a snapshot of the state.  The
returned list is the snapshot sequence delivered to subscribers. -/
def emitW (useApi : Bool) (w : World) : World × List StoreState :=
  let w' : World := if useApi then w else { w with storage := some w.state }
  (w', [w'.state])

/-- `_setState(patch)`: merge a patch into the state, then `_emit`. -/
def setStateW (useApi : Bool) (f : StoreState → StoreState) (w : World) :
    World × List StoreState :=
  emitW useApi { w with state := f w.state }

/-- `_runAsync(actionName, fn)`: set `loading=true, error=null` and emit; run
the body; on a thrown error record `errMessage` in `error` and emit; in all
cases finally set `loading=false` and emit.  The body returns the world and
emissions up to its completion or throw point, and `Except.error m` models a
throw with message `m`.  The returned `Option α` is `none` exactly when the
body threw (the caught failure). -/
def runAsync {α : Type} (useApi : Bool)
    (body : World → World × List StoreState × Except String α)
    (w : World) : World × List StoreState × Option α :=
  let r1 := setStateW useApi (fun s => { s with loading := true, error := none }) w
  let rb := body r1.1
  match rb.2.2 with
  | Except.ok a =>
    let r3 := setStateW useApi (fun s => { s with loading := false }) rb.1
    (r3.1, r1.2 ++ rb.2.1 ++ r3.2, some a)
  | Except.error m =>
    let r2 := setStateW useApi (fun s => { s with error := some (errMessage m) }) rb.1
    let r3 := setStateW useApi (fun s => { s with loading := false }) r2.1
    (r3.1, r1.2 ++ rb.2.1 ++ r2.2 ++ r3.2, none)

/-- A raw note payload from the API or localStorage: each canonical field is
either absent (`none`, the `?? fallback` case) or present with its
`String(...)`/`Number(...)`-coerced value. -/
structure RawNote where
  id : Option String
  title : Option String
  content : Option String
  updatedAt : Option Int
  createdAt : Option Int
deriving Repr, DecidableEq

/-- Normalization of one raw note in `loadNotes`:
`{id: String(n.id ?? uid()), title: String(n.title ?? ''), content:
String(n.content ?? ''), updatedAt: Number(n.updatedAt ?? Date.now()),
createdAt: Number(n.createdAt ?? Date.now())}`. -/
def normalizeNote (genId : String) (now : Int) (n : RawNote) : Note :=
  { id := n.id.getD genId
    title := n.title.getD ""
    content := n.content.getD ""
    updatedAt := n.updatedAt.getD now
    createdAt := n.createdAt.getD now }

/-- The `GET /notes` response body: either not an array (triggering
`'Invalid response from server.'`), or an array whose entries are objects
(`some raw`) or non-objects (`none`, dropped by the `filter`). -/
inductive ListResp where
  | notArray : ListResp
  | arr : List (Option RawNote) → ListResp
deriving Repr, DecidableEq

/-- `data.filter(n => n && typeof n === 'object').map(n => ({...}))` in
`loadNotes`, with `genIds i` the `uid()` minted for the `i`-th kept entry. -/
def normalizeList (genIds : Nat → String) (now : Int)
    (items : List (Option RawNote)) : List Note :=
  ((items.filterMap (fun x => x)).enum).map
    (fun p => normalizeNote (genIds p.1) now p.2)

/-- `loadNotes()`.  In local mode it only re-emits the current state; in API
mode it fetches `/notes` (`fetchList` oracle), requires an array, normalizes
entries and replaces `notes`.  The promise always resolves (to `undefined`). -/
def loadNotes (useApi : Bool) (fetchList : Except String ListResp)
    (genIds : Nat → String) (now : Int) (w : World) :
    World × List StoreState × Except String Unit :=
  let r := runAsync useApi
    (fun w1 =>
      if useApi then
        match fetchList with
        | Except.error m => (w1, [], Except.error m)
        | Except.ok ListResp.notArray =>
            (w1, [], Except.error "Invalid response from server.")
        | Except.ok (ListResp.arr items) =>
            let notes := normalizeList genIds now items
            let r2 := setStateW useApi (fun s => { s with notes := notes }) w1
            (r2.1, r2.2, Except.ok ())
      else
        let r2 := emitW useApi w1
        (r2.1, r2.2, Except.ok ())) w
  (r.1, r.2.1, Except.ok ())

/-- The `{title, content}` argument of `addNote`; `none` means the field (or
the whole object) was omitted, defaulting to `''`. -/
structure AddArgs where
  title : Option String := none
  content : Option String := none
deriving Repr, DecidableEq

/-- `addNote({title, content})`.  Builds the base payload, creates via the API
(`apiCreate` oracle, `POST /notes`) or locally with `uid()`/`Date.now()`
(`genId`/`now`), appends the created record and selects it.  The promise
always resolves, to the created note or to `null` on a caught failure. -/
def addNote (useApi : Bool) (apiCreate : Except String RawNote)
    (genId : String) (now : Int) (args : AddArgs) (w : World) :
    World × List StoreState × Except String (Option Note) :=
  let r := runAsync useApi
    (fun w1 =>
      let bTitle := args.title.getD ""
      let bContent := args.content.getD ""
      if useApi then
        match apiCreate with
        | Except.error m => (w1, [], Except.error m)
        | Except.ok data =>
            let created : Note :=
              { id := data.id.getD genId
                title := data.title.getD bTitle
                content := data.content.getD bContent
                updatedAt := data.updatedAt.getD now
                createdAt := data.createdAt.getD now }
            let r2 := setStateW useApi
              (fun s => { s with notes := s.notes ++ [created], selectedNoteId := some created.id }) w1
            (r2.1, r2.2, Except.ok created)
      else
        let created : Note :=
          { id := genId, title := bTitle, content := bContent,
            createdAt := now, updatedAt := now }
        let r2 := setStateW useApi
          (fun s => { s with notes := s.notes ++ [created], selectedNoteId := some created.id }) w1
        (r2.1, r2.2, Except.ok created)) w
  (r.1, r.2.1, Except.ok r.2.2)

/-- The `updates` argument of `updateNote`; `none` models a field that is
`undefined` (the `!== undefined` checks). -/
structure UpdateArgs where
  title : Option String := none
  content : Option String := none
deriving Repr, DecidableEq

/-- `if (!id)`: the id argument is falsy (JS `null`/`undefined`/`''`). -/
def falsyId : Option String → Bool
  | none => true
  | some s => s == ""

/-- `updateNote(id, updates)`.  A falsy `id` throws before `_runAsync`, so the
promise rejects with the validation message and nothing happens.  Otherwise
the body looks up the existing record (throwing `'Note not found'` if absent),
builds the payload, updates via the API (`apiUpdate` oracle, `PUT`) or locally
with `updatedAt = Date.now()`, and replaces the matching record. -/
def updateNote (useApi : Bool) (apiUpdate : Except String RawNote) (now : Int)
    (id : Option String) (upd : UpdateArgs) (w : World) :
    World × List StoreState × Except String (Option Note) :=
  if falsyId id then (w, [], Except.error "updateNote requires an id")
  else
    let v := id.getD ""
    let r := runAsync useApi
      (fun w1 =>
        match w1.state.notes.find? (fun n => n.id == v) with
        | none => (w1, [], Except.error "Note not found")
        | some existing =>
          let pTitle := match upd.title with
            | some t => t
            | none => existing.title
          let pContent := match upd.content with
            | some c => c
            | none => existing.content
          if useApi then
            match apiUpdate with
            | Except.error m => (w1, [], Except.error m)
            | Except.ok data =>
                let updated : Note :=
                  { id := data.id.getD v
                    title := data.title.getD pTitle
                    content := data.content.getD pContent
                    updatedAt := data.updatedAt.getD now
                    createdAt := data.createdAt.getD existing.createdAt }
                let r2 := setStateW useApi
                  (fun s => { s with notes := s.notes.map (fun n => if n.id == v then updated else n) }) w1
                (r2.1, r2.2, Except.ok updated)
          else
            let updated : Note :=
              { existing with title := pTitle, content := pContent,
                              updatedAt := now }
            let r2 := setStateW useApi
              (fun s => { s with notes := s.notes.map (fun n => if n.id == v then updated else n) }) w1
            (r2.1, r2.2, Except.ok updated)) w
    (r.1, r.2.1, Except.ok r.2.2)

/-- `deleteNote(id)`.  A falsy `id` throws before `_runAsync` (rejected
promise, nothing happens).  Otherwise the body requires the record to exist,
deletes via the API when configured (`apiDelete` oracle), filters the record
out and moves a selection that pointed at it to the first remaining record
(`notes[0]?.id ?? null`).  The promise resolves to the `ok` flag: `true` iff
the body completed. -/
def deleteNote (useApi : Bool) (apiDelete : Except String Unit)
    (id : Option String) (w : World) :
    World × List StoreState × Except String Bool :=
  if falsyId id then (w, [], Except.error "deleteNote requires an id")
  else
    let v := id.getD ""
    let r := runAsync useApi
      (fun w1 =>
        if w1.state.notes.any (fun n => n.id == v) then
          match (if useApi then apiDelete else Except.ok ()) with
          | Except.error m => (w1, [], Except.error m)
          | Except.ok _ =>
              let notes := w1.state.notes.filter (fun n => !(n.id == v))
              let sel := if w1.state.selectedNoteId == some v then
                  notes.head?.map (fun n => n.id)
                else w1.state.selectedNoteId
              let r2 := setStateW useApi
                (fun s => { s with notes := notes, selectedNoteId := sel }) w1
              (r2.1, r2.2, Except.ok ())
        else (w1, [], Except.error "Note not found")) w
    (r.1, r.2.1, Except.ok (r.2.2.map (fun _ => true)).isSome)

/-- `selectNote(id)`: synchronous, no backend oracle.  `null` clears the
selection; an id absent from `notes` only sets `error = 'Note not found'`;
a present id becomes the selection. -/
def selectNote (useApi : Bool) (id : Option String) (w : World) :
    World × List StoreState :=
  match id with
  | none => setStateW useApi (fun s => { s with selectedNoteId := none }) w
  | some v =>
    if w.state.notes.any (fun n => n.id == v) then
      setStateW useApi (fun s => { s with selectedNoteId := some v }) w
    else
      setStateW useApi (fun s => { s with error := some "Note not found" }) w

/-- The sort comparator of `sortedNotes`:
`(b.updatedAt || 0) - (a.updatedAt || 0)`, ties broken by comparing
lower-cased titles (`-1`/`1`/`0`).  On the canonical numeric/string fields
`|| 0` and `|| ''` are the identity. -/
def jsCmp (a b : Note) : Int :=
  let t := b.updatedAt - a.updatedAt
  if t ≠ 0 then t
  else
    let ta := a.title.toLower
    let tb := b.title.toLower
    if ta < tb then -1 else if ta > tb then 1 else 0

/-- `a` may come before `b` under the comparator: `jsCmp a b ≤ 0`. -/
def noteLE (a b : Note) : Bool := jsCmp a b ≤ 0

/-- `sortedNotes()`: `[...this._state.notes].sort(cmp)`.  JS `Array.sort` is a
stable sort, embedded as Lean's stable `List.mergeSort`. -/
def sortedNotes (notes : List Note) : List Note :=
  notes.mergeSort noteLE

/-- The stable sort on index-tagged notes: `enumLE noteLE` orders by the
comparator first and by original position on comparator-ties, which is the
order a stable sort realizes. -/
def stableKeySort (ns : List Note) : List (Nat × Note) :=
  (ns.enum).mergeSort (List.enumLE noteLE)

/-- Settled promises are comparable when their payloads are. -/
instance {ε α : Type} [DecidableEq ε] [DecidableEq α] : DecidableEq (Except ε α) := fun a b =>
  match a, b with
  | Except.ok x, Except.ok y =>
    if h : x = y then isTrue (by rw [h]) else isFalse (by intro hc; cases hc; exact h rfl)
  | Except.error x, Except.error y =>
    if h : x = y then isTrue (by rw [h]) else isFalse (by intro hc; cases hc; exact h rfl)
  | Except.ok _, Except.error _ => isFalse (by intro hc; cases hc)
  | Except.error _, Except.ok _ => isFalse (by intro hc; cases hc)

/-- The failure frame required after a caught action failure: `notes` and
`selectedNoteId` as before the action, `loading` back to `false`, and `error`
holding the failure's message. -/
def failFrame (w fin : World) (msg : String) : Prop :=
  fin.state.notes = w.state.notes
  ∧ fin.state.selectedNoteId = w.state.selectedNoteId
  ∧ fin.state.loading = false
  ∧ fin.state.error = some msg

/-- Example note (Scenario B's `{id:"1",updatedAt:100}`). -/
def exNote1 : Note :=
  { id := "1", title := "b", content := "", createdAt := 50, updatedAt := 100 }

/-- Example note (Scenario B's `{id:"2",updatedAt:200}`). -/
def exNote2 : Note :=
  { id := "2", title := "a", content := "", createdAt := 60, updatedAt := 200 }

/-- An example store state holding the two example notes, note 1 selected. -/
def exState : StoreState :=
  { notes := [exNote1, exNote2], selectedNoteId := some "1",
    loading := false, error := none }

/-- An example world: the example state, mirrored in the storage blob. -/
def exWorld : World := { state := exState, storage := some exState }

/-- An empty store world (Scenario A's starting point). -/
def emptyWorld : World := { state := defaultState, storage := none }

/-! ### Characterization lemmas for the action paths -/

theorem emitW_fst_state (useApi : Bool) (w : World) :
    ((emitW useApi w).1).state = w.state := by
  cases useApi <;> rfl

theorem setStateW_fst_state (useApi : Bool) (f : StoreState → StoreState) (w : World) :
    ((setStateW useApi f w).1).state = f w.state := by
  cases useApi <;> rfl

theorem deleteNote_notFound (useApi : Bool) (apiD : Except String Unit)
    (v : String) (w : World) (hv : v ≠ "")
    (hany : (w.state.notes.any fun n => n.id == v) = false) :
    (deleteNote useApi apiD (some v) w).1.state
      = { w.state with loading := false, error := some "Note not found" }
    ∧ (deleteNote useApi apiD (some v) w).2.2 = Except.ok false
    ∧ (useApi = false → (deleteNote useApi apiD (some v) w).1.storage
        = some (deleteNote useApi apiD (some v) w).1.state) := by
  have hb : (v == "") = false := beq_eq_false_iff_ne.mpr hv
  cases useApi <;>
    simp [deleteNote, runAsync, setStateW, emitW, falsyId, errMessage, hb, hany]

theorem deleteNote_apiFail (apiD : Except String Unit) (m : String)
    (v : String) (w : World) (hv : v ≠ "") (hm : apiD = Except.error m)
    (hany : (w.state.notes.any fun n => n.id == v) = true) :
    (deleteNote true apiD (some v) w).1.state
      = { w.state with loading := false, error := some (errMessage m) }
    ∧ (deleteNote true apiD (some v) w).2.2 = Except.ok false := by
  have hb : (v == "") = false := beq_eq_false_iff_ne.mpr hv
  subst hm
  simp [deleteNote, runAsync, setStateW, emitW, falsyId, hb, hany]

theorem deleteNote_ok (useApi : Bool) (apiD : Except String Unit)
    (v : String) (w : World) (hv : v ≠ "")
    (hok : useApi = true → apiD = Except.ok ())
    (hany : (w.state.notes.any fun n => n.id == v) = true) :
    (deleteNote useApi apiD (some v) w).1.state
      = { w.state with
            notes := w.state.notes.filter (fun n => !(n.id == v)),
            selectedNoteId :=
              if w.state.selectedNoteId == some v then
                (w.state.notes.filter (fun n => !(n.id == v))).head?.map (fun n => n.id)
              else w.state.selectedNoteId,
            loading := false, error := none }
    ∧ (deleteNote useApi apiD (some v) w).2.2 = Except.ok true
    ∧ (useApi = false → (deleteNote useApi apiD (some v) w).1.storage
        = some (deleteNote useApi apiD (some v) w).1.state) := by
  have hb : (v == "") = false := beq_eq_false_iff_ne.mpr hv
  cases useApi
  · simp [deleteNote, runAsync, setStateW, emitW, falsyId, hb, hany]
  · have h := hok rfl
    subst h
    simp [deleteNote, runAsync, setStateW, emitW, falsyId, hb, hany]

theorem updateNote_notFound (useApi : Bool) (apiU : Except String RawNote)
    (now : Int) (v : String) (upd : UpdateArgs) (w : World) (hv : v ≠ "")
    (hf : w.state.notes.find? (fun n => n.id == v) = none) :
    (updateNote useApi apiU now (some v) upd w).1.state
      = { w.state with loading := false, error := some "Note not found" }
    ∧ (updateNote useApi apiU now (some v) upd w).2.2 = Except.ok none
    ∧ (useApi = false → (updateNote useApi apiU now (some v) upd w).1.storage
        = some (updateNote useApi apiU now (some v) upd w).1.state) := by
  have hb : (v == "") = false := beq_eq_false_iff_ne.mpr hv
  cases useApi <;>
    simp [updateNote, runAsync, setStateW, emitW, falsyId, errMessage, hb, hf]

theorem updateNote_apiFail (apiU : Except String RawNote) (m : String)
    (now : Int) (v : String) (upd : UpdateArgs) (w : World) (ex : Note)
    (hv : v ≠ "") (hm : apiU = Except.error m)
    (hf : w.state.notes.find? (fun n => n.id == v) = some ex) :
    (updateNote true apiU now (some v) upd w).1.state
      = { w.state with loading := false, error := some (errMessage m) }
    ∧ (updateNote true apiU now (some v) upd w).2.2 = Except.ok none := by
  have hb : (v == "") = false := beq_eq_false_iff_ne.mpr hv
  subst hm
  simp [updateNote, runAsync, setStateW, emitW, falsyId, hb, hf]

theorem updateNote_apiOk (data : RawNote)
    (now : Int) (v : String) (upd : UpdateArgs) (w : World) (ex : Note)
    (hv : v ≠ "")
    (hf : w.state.notes.find? (fun n => n.id == v) = some ex) :
    (updateNote true (Except.ok data) now (some v) upd w).1.state
      = { w.state with
            notes := w.state.notes.map (fun n =>
              if n.id == v then
                { id := data.id.getD v
                  title := data.title.getD (upd.title.getD ex.title)
                  content := data.content.getD (upd.content.getD ex.content)
                  updatedAt := data.updatedAt.getD now
                  createdAt := data.createdAt.getD ex.createdAt }
              else n),
            loading := false, error := none }
    ∧ (updateNote true (Except.ok data) now (some v) upd w).2.2
        = Except.ok (some
            { id := data.id.getD v
              title := data.title.getD (upd.title.getD ex.title)
              content := data.content.getD (upd.content.getD ex.content)
              updatedAt := data.updatedAt.getD now
              createdAt := data.createdAt.getD ex.createdAt }) := by
  have hb : (v == "") = false := beq_eq_false_iff_ne.mpr hv
  constructor <;>
  · simp only [updateNote, runAsync, setStateW, emitW, falsyId, hb,
      Bool.false_eq_true, if_false, setStateW_fst_state, emitW_fst_state]
    simp [hf, Option.getD]
    cases upd.title <;> cases upd.content <;> simp

theorem updateNote_localOk (apiU : Except String RawNote)
    (now : Int) (v : String) (upd : UpdateArgs) (w : World) (ex : Note)
    (hv : v ≠ "")
    (hf : w.state.notes.find? (fun n => n.id == v) = some ex) :
    (updateNote false apiU now (some v) upd w).1.state
      = { w.state with
            notes := w.state.notes.map (fun n =>
              if n.id == v then
                { ex with
                    title := upd.title.getD ex.title
                    content := upd.content.getD ex.content
                    updatedAt := now }
              else n),
            loading := false, error := none }
    ∧ (updateNote false apiU now (some v) upd w).2.2
        = Except.ok (some
            { ex with
                title := upd.title.getD ex.title
                content := upd.content.getD ex.content
                updatedAt := now })
    ∧ (updateNote false apiU now (some v) upd w).1.storage
        = some (updateNote false apiU now (some v) upd w).1.state := by
  have hb : (v == "") = false := beq_eq_false_iff_ne.mpr hv
  refine ⟨?_, ?_, ?_⟩ <;>
  · simp only [updateNote, runAsync, setStateW, emitW, falsyId, hb,
      Bool.false_eq_true, if_false]
    simp [hf, Option.getD]
    try cases upd.title <;> cases upd.content <;> simp

theorem addNote_local (apiC : Except String RawNote) (genId : String)
    (now : Int) (args : AddArgs) (w : World) :
    (addNote false apiC genId now args w).1.state
      = { w.state with
            notes := w.state.notes ++
              [{ id := genId, title := args.title.getD "",
                 content := args.content.getD "", createdAt := now,
                 updatedAt := now }],
            selectedNoteId := some genId, loading := false, error := none }
    ∧ (addNote false apiC genId now args w).2.2
        = Except.ok (some
            { id := genId, title := args.title.getD "",
              content := args.content.getD "", createdAt := now,
              updatedAt := now })
    ∧ (addNote false apiC genId now args w).1.storage
        = some (addNote false apiC genId now args w).1.state := by
  simp [addNote, runAsync, setStateW, emitW]

theorem addNote_apiOk (data : RawNote) (genId : String)
    (now : Int) (args : AddArgs) (w : World) :
    (addNote true (Except.ok data) genId now args w).1.state
      = { w.state with
            notes := w.state.notes ++
              [{ id := data.id.getD genId
                 title := data.title.getD (args.title.getD "")
                 content := data.content.getD (args.content.getD "")
                 updatedAt := data.updatedAt.getD now
                 createdAt := data.createdAt.getD now }],
            selectedNoteId := some (data.id.getD genId),
            loading := false, error := none }
    ∧ (addNote true (Except.ok data) genId now args w).2.2
        = Except.ok (some
            { id := data.id.getD genId
              title := data.title.getD (args.title.getD "")
              content := data.content.getD (args.content.getD "")
              updatedAt := data.updatedAt.getD now
              createdAt := data.createdAt.getD now }) := by
  constructor <;> simp [addNote, runAsync, setStateW, emitW]

theorem addNote_apiFail (apiC : Except String RawNote) (m : String)
    (genId : String) (now : Int) (args : AddArgs) (w : World)
    (hm : apiC = Except.error m) :
    (addNote true apiC genId now args w).1.state
      = { w.state with loading := false, error := some (errMessage m) }
    ∧ (addNote true apiC genId now args w).2.2 = Except.ok none := by
  subst hm
  simp [addNote, runAsync, setStateW, emitW]

theorem loadNotes_local (fetch : Except String ListResp) (gI : Nat → String)
    (now : Int) (w : World) :
    (loadNotes false fetch gI now w).1.state
      = { w.state with loading := false, error := none }
    ∧ (loadNotes false fetch gI now w).2.2 = Except.ok ()
    ∧ (loadNotes false fetch gI now w).1.storage
        = some (loadNotes false fetch gI now w).1.state := by
  simp [loadNotes, runAsync, setStateW, emitW]

theorem loadNotes_apiOk (items : List (Option RawNote)) (gI : Nat → String)
    (now : Int) (w : World) :
    (loadNotes true (Except.ok (ListResp.arr items)) gI now w).1.state
      = { w.state with
            notes := normalizeList gI now items,
            loading := false, error := none }
    ∧ (loadNotes true (Except.ok (ListResp.arr items)) gI now w).2.2
        = Except.ok () := by
  constructor <;> simp [loadNotes, runAsync, setStateW, emitW]

theorem loadNotes_apiFail (m : String) (gI : Nat → String)
    (now : Int) (w : World) :
    (loadNotes true (Except.error m) gI now w).1.state
      = { w.state with loading := false, error := some (errMessage m) } := by
  simp [loadNotes, runAsync, setStateW, emitW]

/-! ### Claim theorems -/

/-- C1: for every action whose delegated backend/storage step fails —
`loadNotes` (fetch throws), `addNote` (create throws), `updateNote` and
`deleteNote` (the PUT/DELETE throws on an existing record) — the final state
after the action's promise settles has `error` equal to the failure's message
(non-null; the code falls back to `'Unknown error'` for an empty message),
`notes` and `selectedNoteId` unchanged from their state before the failure,
and `loading = false`; in particular `updateNote` on an id absent from the
store ends with the non-null `error` `"Note not found"`, `notes` unchanged,
and `loading = false`, in both modes. -/
theorem C1_failure_frame :
    (∀ (w : World) (gI : Nat → String) (now : Int) (m : String),
        failFrame w (loadNotes true (Except.error m) gI now w).1 (errMessage m))
    ∧ (∀ (w : World) (genId : String) (now : Int) (args : AddArgs) (m : String),
        failFrame w (addNote true (Except.error m) genId now args w).1 (errMessage m))
    ∧ (∀ (w : World) (v : String) (now : Int) (upd : UpdateArgs) (m : String),
        v ≠ "" → (∃ n ∈ w.state.notes, n.id = v) →
        failFrame w (updateNote true (Except.error m) now (some v) upd w).1 (errMessage m))
    ∧ (∀ (w : World) (v : String) (m : String),
        v ≠ "" → (w.state.notes.any fun n => n.id == v) = true →
        failFrame w (deleteNote true (Except.error m) (some v) w).1 (errMessage m))
    ∧ (∀ (useApi : Bool) (apiU : Except String RawNote) (w : World) (v : String)
        (now : Int) (upd : UpdateArgs),
        v ≠ "" → (∀ n ∈ w.state.notes, n.id ≠ v) →
        failFrame w (updateNote useApi apiU now (some v) upd w).1 "Note not found") := by
  refine ⟨?_, ?_, ?_, ?_, ?_⟩
  · intro w gI now m
    have h := loadNotes_apiFail m gI now w
    simp [failFrame, h]
  · intro w genId now args m
    have h := (addNote_apiFail (Except.error m) m genId now args w rfl).1
    simp [failFrame, h]
  · intro w v now upd m hv hex
    have hs : (w.state.notes.find? (fun n => n.id == v)).isSome := by
      rw [List.find?_isSome]
      obtain ⟨n, hn, hid⟩ := hex
      exact ⟨n, hn, by simp [hid]⟩
    obtain ⟨ex, hf⟩ := Option.isSome_iff_exists.mp hs
    have h := (updateNote_apiFail (Except.error m) m now v upd w ex hv rfl hf).1
    simp [failFrame, h]
  · intro w v m hv hany
    have h := (deleteNote_apiFail (Except.error m) m v w hv rfl hany).1
    simp [failFrame, h]
  · intro useApi apiU w v now upd hv hall
    have hf : w.state.notes.find? (fun n => n.id == v) = none := by
      rw [List.find?_eq_none]
      intro x hx
      simp [hall x hx]
    have h := (updateNote_notFound useApi apiU now v upd w hv hf).1
    simp [failFrame, h]

/-- C1 witness: the failure frame at concrete inputs — a DELETE whose backend
call throws `TransportError` on the selected example note, and `updateNote`
on the absent id `"missing-id"` in local mode. -/
theorem C1_failure_frame_witness :
    failFrame exWorld
      (deleteNote true (Except.error "TransportError") (some "1") exWorld).1
      (errMessage "TransportError")
    ∧ failFrame exWorld
      (updateNote false (Except.ok ⟨none, none, none, none, none⟩) 0
        (some "missing-id") {} exWorld).1
      "Note not found" := by
  constructor
  · exact C1_failure_frame.2.2.2.1 exWorld "1" "TransportError"
      (by decide) (by decide)
  · exact C1_failure_frame.2.2.2.2 false (Except.ok ⟨none, none, none, none, none⟩)
      exWorld "missing-id" 0 {} (by decide) (by decide)

/-- C2 counterexample: `deleteNote(null)` — a falsy/missing id — does escape
the action method: the returned promise rejects with the validation error
instead of resolving, and the failure is not recorded in `getState().error`,
which stays `null`.  This refutes the claim's "for every argument value,
including a falsy or missing id, ... never as a rejection". -/
theorem C2_counterexample_falsy_id_rejects :
    (deleteNote false (Except.ok ()) none exWorld).2.2
      = Except.error "deleteNote requires an id"
    ∧ (deleteNote false (Except.ok ()) none exWorld).1.state.error = none := by
  decide

/-- C2 (amended): every backend/storage failure is caught at the action
boundary and observed only through `getState().error`: `loadNotes` and
`addNote` never reject for any argument, `updateNote`/`deleteNote` never
reject for a truthy id and record any caught failure as a non-null `error`
string; however, `updateNote`/`deleteNote` called with a falsy or missing id
reject their returned promise with the validation error, without recording
anything in the state. -/
theorem C2_amended_failures_via_error_only :
    (∀ (useApi : Bool) (fetch : Except String ListResp) (gI : Nat → String)
        (now : Int) (w : World),
        (loadNotes useApi fetch gI now w).2.2 = Except.ok ())
    ∧ (∀ (useApi : Bool) (api : Except String RawNote) (genId : String)
        (now : Int) (args : AddArgs) (w : World),
        (addNote useApi api genId now args w).2.2.isOk = true)
    ∧ (∀ (useApi : Bool) (apiU : Except String RawNote) (now : Int)
        (v : String) (upd : UpdateArgs) (w : World), v ≠ "" →
        (updateNote useApi apiU now (some v) upd w).2.2.isOk = true
        ∧ ((updateNote useApi apiU now (some v) upd w).2.2 = Except.ok none →
            (updateNote useApi apiU now (some v) upd w).1.state.error ≠ none))
    ∧ (∀ (useApi : Bool) (apiD : Except String Unit) (v : String) (w : World),
        v ≠ "" →
        (deleteNote useApi apiD (some v) w).2.2.isOk = true
        ∧ ((deleteNote useApi apiD (some v) w).2.2 = Except.ok false →
            (deleteNote useApi apiD (some v) w).1.state.error ≠ none))
    ∧ (∀ (useApi : Bool) (apiU : Except String RawNote)
        (apiD : Except String Unit) (now : Int) (upd : UpdateArgs)
        (id : Option String) (w : World), falsyId id = true →
        updateNote useApi apiU now id upd w
          = (w, [], Except.error "updateNote requires an id")
        ∧ deleteNote useApi apiD id w
          = (w, [], Except.error "deleteNote requires an id")) := by
  refine ⟨?_, ?_, ?_, ?_, ?_⟩
  · intro useApi fetch gI now w
    rfl
  · intro useApi api genId now args w
    rfl
  · intro useApi apiU now v upd w hv
    have hb : (v == "") = false := beq_eq_false_iff_ne.mpr hv
    constructor
    · simp only [updateNote, falsyId, hb, Bool.false_eq_true, if_false]
      rfl
    · intro hres
      cases hf : w.state.notes.find? (fun n => n.id == v) with
      | none =>
        have h := (updateNote_notFound useApi apiU now v upd w hv hf).1
        simp [h]
      | some ex =>
        cases useApi with
        | false =>
          have h := (updateNote_localOk apiU now v upd w ex hv hf).2.1
          rw [h] at hres
          simp at hres
        | true =>
          cases hm : apiU with
          | error m =>
            have h := (updateNote_apiFail (Except.error m) m now v upd w ex hv rfl hf).1
            simp [h]
          | ok data =>
            subst hm
            have h := (updateNote_apiOk data now v upd w ex hv hf).2
            rw [h] at hres
            simp at hres
  · intro useApi apiD v w hv
    have hb : (v == "") = false := beq_eq_false_iff_ne.mpr hv
    constructor
    · simp only [deleteNote, falsyId, hb, Bool.false_eq_true, if_false]
      rfl
    · intro hres
      cases hany : (w.state.notes.any fun n => n.id == v) with
      | false =>
        have h := (deleteNote_notFound useApi apiD v w hv hany).1
        simp [h]
      | true =>
        cases useApi with
        | false =>
          have h := (deleteNote_ok false apiD v w hv (fun h => nomatch h) hany).2.1
          rw [h] at hres
          simp at hres
        | true =>
          cases hm : apiD with
          | error m =>
            have h := (deleteNote_apiFail (Except.error m) m v w hv rfl hany).1
            simp [h]
          | ok u =>
            have h := (deleteNote_ok true apiD v w hv (fun _ => by cases u; exact hm) hany).2.1
            rw [h] at hres
            simp at hres
  · intro useApi apiU apiD now upd id w h
    constructor
    · simp [updateNote, h]
    · simp [deleteNote, h]

/-- C2 amended witness: at `v = "1"` on the example world, the truthy-id
update resolves (no rejection), and for `id = null` the delete rejects with
the validation error and leaves the world untouched. -/
theorem C2_amended_failures_via_error_only_witness :
    ((updateNote false (Except.ok ⟨none, none, none, none, none⟩) 7
        (some "1") {} exWorld).2.2.isOk = true)
    ∧ deleteNote false (Except.ok ()) none exWorld
        = (exWorld, [], Except.error "deleteNote requires an id") := by
  constructor
  · exact (C2_amended_failures_via_error_only.2.2.1 false
      (Except.ok ⟨none, none, none, none, none⟩) 7 "1" {} exWorld (by decide)).1
  · exact (C2_amended_failures_via_error_only.2.2.2.2 false
      (Except.ok ⟨none, none, none, none, none⟩) (Except.ok ()) 0 {} none exWorld
      (by decide)).2

/-- C3: for a falsy `id` (JS `null`/`undefined`/`''`), `deleteNote id` and
`updateNote id fields` fail with the validation error thrown synchronously
before `_runAsync` and before any I/O: the returned promise rejects with the
`requires an id` message, the world (state and storage blob) is untouched,
nothing is emitted — in particular `loading` is never set to `true` and
`notes`/`selectedNoteId` are never modified — and the outcome is the same for
every backend oracle, i.e. no I/O is attempted. -/
theorem C3_falsy_id_fails_before_io (useApi : Bool)
    (apiU : Except String RawNote) (apiD : Except String Unit) (now : Int)
    (upd : UpdateArgs) (id : Option String) (w : World)
    (h : falsyId id = true) :
    updateNote useApi apiU now id upd w
      = (w, [], Except.error "updateNote requires an id")
    ∧ deleteNote useApi apiD id w
      = (w, [], Except.error "deleteNote requires an id") := by
  constructor
  · simp [updateNote, h]
  · simp [deleteNote, h]

/-- Removing the unique note with a given id shortens the list by one. -/
theorem filter_not_id_length (v : String) :
    ∀ ns : List Note, (ns.map Note.id).Nodup →
      (ns.any fun n => n.id == v) = true →
      (ns.filter fun n => !(n.id == v)).length + 1 = ns.length := by
  intro ns
  induction ns with
  | nil => simp
  | cons n tl ih =>
    intro hnd hany
    simp only [List.map_cons, List.nodup_cons] at hnd
    by_cases hid : n.id = v
    · have hall : ∀ x ∈ tl, (!(x.id == v)) = true := by
        intro x hx
        have hxid : x.id ≠ v := by
          intro hcontra
          exact hnd.1 (List.mem_map.mpr ⟨x, hx, by rw [hcontra, hid]⟩)
        simp [hxid]
      rw [List.filter_cons]
      simp only [hid, beq_self_eq_true, Bool.not_true, Bool.false_eq_true,
        if_false]
      rw [List.filter_eq_self.mpr hall]
      simp
    · have hb : (n.id == v) = false := beq_eq_false_iff_ne.mpr hid
      have hany' : (tl.any fun x => x.id == v) = true := by
        simp only [List.any_cons, hb, Bool.false_or] at hany
        exact hany
      rw [List.filter_cons]
      simp only [hb, Bool.not_false, if_true, List.length_cons]
      have := ih hnd.2 hany'
      omega

/-- C4: a successful `addNote {title, content}` (with title/content defaulting
to `''` when omitted) appends exactly one new record carrying that title and
content to `notes`, sets `selectedNoteId` to the new record's id, and settles
with `loading = false` and `error = null`, resolving to the created note; on
an empty store this leaves exactly one record.  In API mode the server
response is assumed to respect the backend `create` contract — it echoes or
omits `title`/`content` — while ids/timestamps may be server-assigned. -/
theorem C4_addNote_success :
    (∀ (w : World) (api : Except String RawNote) (genId : String) (now : Int)
        (t c : Option String),
        (addNote false api genId now ⟨t, c⟩ w).1.state.notes
            = w.state.notes ++
              [{ id := genId, title := t.getD "", content := c.getD "",
                 createdAt := now, updatedAt := now }]
        ∧ (addNote false api genId now ⟨t, c⟩ w).1.state.selectedNoteId = some genId
        ∧ (addNote false api genId now ⟨t, c⟩ w).1.state.loading = false
        ∧ (addNote false api genId now ⟨t, c⟩ w).1.state.error = none
        ∧ (addNote false api genId now ⟨t, c⟩ w).2.2
            = Except.ok (some
                { id := genId, title := t.getD "", content := c.getD "",
                  createdAt := now, updatedAt := now })
        ∧ (w.state.notes = [] →
            (addNote false api genId now ⟨t, c⟩ w).1.state.notes.length = 1))
    ∧ (∀ (w : World) (data : RawNote) (genId : String) (now : Int)
        (t c : Option String),
        (data.title = none ∨ data.title = some (t.getD "")) →
        (data.content = none ∨ data.content = some (c.getD "")) →
        (addNote true (Except.ok data) genId now ⟨t, c⟩ w).1.state.notes
            = w.state.notes ++
              [{ id := data.id.getD genId, title := t.getD "",
                 content := c.getD "",
                 createdAt := data.createdAt.getD now,
                 updatedAt := data.updatedAt.getD now }]
        ∧ (addNote true (Except.ok data) genId now ⟨t, c⟩ w).1.state.selectedNoteId
            = some (data.id.getD genId)
        ∧ (addNote true (Except.ok data) genId now ⟨t, c⟩ w).1.state.loading = false
        ∧ (addNote true (Except.ok data) genId now ⟨t, c⟩ w).1.state.error = none
        ∧ (w.state.notes = [] →
            (addNote true (Except.ok data) genId now ⟨t, c⟩ w).1.state.notes.length
              = 1)) := by
  constructor
  · intro w api genId now t c
    have h := addNote_local api genId now ⟨t, c⟩ w
    refine ⟨by simp [h.1], by simp [h.1], by simp [h.1], by simp [h.1],
      by simp [h.2.1], ?_⟩
    intro hempty
    simp [h.1, hempty]
  · intro w data genId now t c ht hc
    have htit : data.title.getD (t.getD "") = t.getD "" := by
      rcases ht with h | h <;> simp [h]
    have hcon : data.content.getD (c.getD "") = c.getD "" := by
      rcases hc with h | h <;> simp [h]
    have h := addNote_apiOk data genId now ⟨t, c⟩ w
    refine ⟨?_, by simp [h.1], by simp [h.1], by simp [h.1], ?_⟩
    · simp only [h.1]
      simp [htit, hcon]
    · intro hempty
      simp [h.1, hempty]

/-- C4 witness: Scenario A locally (empty store, `addNote({title:"Groceries",
content:"Milk, eggs"})`), and an API-mode create whose response echoes the
title and omits the content. -/
theorem C4_addNote_success_witness :
    (addNote false (Except.ok ⟨none, none, none, none, none⟩) "N1" 100
        ⟨some "Groceries", some "Milk, eggs"⟩ emptyWorld).1.state.notes
      = emptyWorld.state.notes ++
        [{ id := "N1", title := "Groceries", content := "Milk, eggs",
           createdAt := 100, updatedAt := 100 }]
    ∧ (addNote true
        (Except.ok ⟨some "S1", some "Groceries", none, some 7, some 7⟩) "N2" 100
        ⟨some "Groceries", none⟩ exWorld).1.state.notes
      = exWorld.state.notes ++
        [{ id := "S1", title := "Groceries", content := "",
           createdAt := 7, updatedAt := 7 }] := by
  constructor
  · exact ((C4_addNote_success.1 emptyWorld
      (Except.ok ⟨none, none, none, none, none⟩) "N1" 100
      (some "Groceries") (some "Milk, eggs")).1)
  · exact ((C4_addNote_success.2 exWorld
      ⟨some "S1", some "Groceries", none, some 7, some 7⟩ "N2" 100
      (some "Groceries") none (by decide) (by decide)).1)

/-- C5: a successful `deleteNote id` on a present id removes exactly that
record from `notes` (under the id-uniqueness invariant the collection shrinks
by exactly one); if the removed record was the selected one, `selectedNoteId`
falls back to the first remaining record's id, or `null` when the collection
is now empty; if it was not the selected one, `selectedNoteId` is unchanged. -/
theorem C5_deleteNote_success (useApi : Bool) (apiD : Except String Unit)
    (w : World) (v : String) (hv : v ≠ "")
    (hok : useApi = true → apiD = Except.ok ())
    (hpresent : (w.state.notes.any fun n => n.id == v) = true) :
    (deleteNote useApi apiD (some v) w).1.state.notes
        = w.state.notes.filter (fun n => !(n.id == v))
    ∧ ((w.state.notes.map Note.id).Nodup →
        (deleteNote useApi apiD (some v) w).1.state.notes.length + 1
          = w.state.notes.length)
    ∧ (w.state.selectedNoteId = some v →
        (deleteNote useApi apiD (some v) w).1.state.selectedNoteId
          = (w.state.notes.filter (fun n => !(n.id == v))).head?.map (fun n => n.id))
    ∧ (w.state.selectedNoteId = some v →
        w.state.notes.filter (fun n => !(n.id == v)) = [] →
        (deleteNote useApi apiD (some v) w).1.state.selectedNoteId = none)
    ∧ (w.state.selectedNoteId ≠ some v →
        (deleteNote useApi apiD (some v) w).1.state.selectedNoteId
          = w.state.selectedNoteId) := by
  have h := (deleteNote_ok useApi apiD v w hv hok hpresent).1
  refine ⟨by simp [h], ?_, ?_, ?_, ?_⟩
  · intro hnd
    rw [h]
    exact filter_not_id_length v w.state.notes hnd hpresent
  · intro hsel
    simp [h, hsel]
  · intro hsel hemp
    simp [h, hsel, hemp]
  · intro hsel
    have hb : (w.state.selectedNoteId == some v) = false :=
      beq_eq_false_iff_ne.mpr hsel
    simp [h, hb]

/-- C5 witness: deleting the selected note `"1"` of the example world moves
the selection to the first remaining record `"2"`, and the collection shrinks
by one. -/
theorem C5_deleteNote_success_witness :
    (deleteNote false (Except.ok ()) (some "1") exWorld).1.state.notes
        = exWorld.state.notes.filter (fun n => !(n.id == "1"))
    ∧ (deleteNote false (Except.ok ()) (some "1") exWorld).1.state.selectedNoteId
        = (exWorld.state.notes.filter (fun n => !(n.id == "1"))).head?.map
            (fun n => n.id) := by
  constructor
  · exact (C5_deleteNote_success false (Except.ok ()) exWorld "1" (by decide)
      (fun h => nomatch h) (by decide)).1
  · exact (C5_deleteNote_success false (Except.ok ()) exWorld "1" (by decide)
      (fun h => nomatch h) (by decide)).2.2.1 (by decide)

/-- C6: `selectNote` is synchronous, performs no I/O (it takes no backend
oracle) and never changes `notes`; `selectNote(null)` clears `selectedNoteId`
unconditionally and leaves `error` untouched; `selectNote(id)` for an id
matching no record leaves the selection unchanged and sets the non-null
`error` `"Note not found"`; `selectNote(id)` for a present id selects it and
leaves `error` untouched. -/
theorem C6_selectNote (useApi : Bool) (w : World) :
    ((selectNote useApi none w).1.state.selectedNoteId = none
      ∧ (selectNote useApi none w).1.state.error = w.state.error
      ∧ (selectNote useApi none w).1.state.notes = w.state.notes)
    ∧ (∀ v : String, (w.state.notes.any fun n => n.id == v) = false →
        (selectNote useApi (some v) w).1.state.selectedNoteId
            = w.state.selectedNoteId
        ∧ (selectNote useApi (some v) w).1.state.error = some "Note not found"
        ∧ (selectNote useApi (some v) w).1.state.notes = w.state.notes)
    ∧ (∀ v : String, (w.state.notes.any fun n => n.id == v) = true →
        (selectNote useApi (some v) w).1.state.selectedNoteId = some v
        ∧ (selectNote useApi (some v) w).1.state.error = w.state.error
        ∧ (selectNote useApi (some v) w).1.state.notes = w.state.notes) := by
  refine ⟨?_, ?_, ?_⟩
  · cases useApi <;> simp [selectNote, setStateW, emitW]
  · intro v hany
    cases useApi <;> simp [selectNote, setStateW, emitW, hany]
  · intro v hany
    cases useApi <;> simp [selectNote, setStateW, emitW, hany]

/-- C6 witness: on the example world, `selectNote(null)` clears the selection
without touching `error`; `selectNote("zzz")` (absent) keeps the selection and
sets the error; `selectNote("2")` (present) selects `"2"`. -/
theorem C6_selectNote_witness :
    (selectNote false none exWorld).1.state.selectedNoteId = none
    ∧ (selectNote false (some "zzz") exWorld).1.state.selectedNoteId
        = exWorld.state.selectedNoteId
    ∧ (selectNote false (some "zzz") exWorld).1.state.error
        = some "Note not found"
    ∧ (selectNote false (some "2") exWorld).1.state.selectedNoteId = some "2" := by
  refine ⟨(C6_selectNote false exWorld).1.1, ?_, ?_, ?_⟩
  · exact ((C6_selectNote false exWorld).2.1 "zzz" (by decide)).1
  · exact ((C6_selectNote false exWorld).2.1 "zzz" (by decide)).2.1
  · exact ((C6_selectNote false exWorld).2.2 "2" (by decide)).1

/-- The comparator accepts `a` before `b` iff `b` is strictly newer is false:
either `b`'s timestamp is strictly smaller, or the timestamps tie and `a`'s
lower-cased title is `≤` `b`'s. -/
theorem noteLE_iff (a b : Note) :
    noteLE a b = true ↔ (b.updatedAt < a.updatedAt
      ∨ (b.updatedAt = a.updatedAt ∧ a.title.toLower ≤ b.title.toLower)) := by
  simp only [noteLE, jsCmp, decide_eq_true_eq]
  by_cases ht : b.updatedAt - a.updatedAt = 0
  · rw [if_neg (by omega : ¬(b.updatedAt - a.updatedAt ≠ 0))]
    have heq : b.updatedAt = a.updatedAt := by omega
    by_cases h1 : a.title.toLower < b.title.toLower
    · rw [if_pos h1]
      simp [heq, le_of_lt h1]
    · rw [if_neg h1]
      by_cases h2 : a.title.toLower > b.title.toLower
      · rw [if_pos h2]
        constructor
        · intro h
          omega
        · rintro (h | ⟨h, hle⟩)
          · omega
          · exact absurd hle (not_le.mpr h2)
      · rw [if_neg h2]
        have hle : a.title.toLower ≤ b.title.toLower := le_of_not_lt h2
        simp [heq, hle]
  · rw [if_pos ht]
    constructor
    · intro h
      left
      omega
    · rintro (h | ⟨h, _⟩)
      · omega
      · omega

/-- The comparator order is total. -/
theorem noteLE_total (a b : Note) : (noteLE a b || noteLE b a) = true := by
  rcases lt_trichotomy a.updatedAt b.updatedAt with h | h | h
  · have hb : noteLE b a = true := (noteLE_iff b a).mpr (Or.inl h)
    simp [hb]
  · rcases le_total a.title.toLower b.title.toLower with hle | hle
    · have ha : noteLE a b = true := (noteLE_iff a b).mpr (Or.inr ⟨h.symm, hle⟩)
      simp [ha]
    · have hb : noteLE b a = true := (noteLE_iff b a).mpr (Or.inr ⟨h, hle⟩)
      simp [hb]
  · have ha : noteLE a b = true := (noteLE_iff a b).mpr (Or.inl h)
    simp [ha]

/-- The comparator order is transitive. -/
theorem noteLE_trans (a b c : Note) (hab : noteLE a b = true)
    (hbc : noteLE b c = true) : noteLE a c = true := by
  apply (noteLE_iff a c).mpr
  rcases (noteLE_iff a b).mp hab with h1 | ⟨h1, h1'⟩ <;>
    rcases (noteLE_iff b c).mp hbc with h2 | ⟨h2, h2'⟩
  · exact Or.inl (by omega)
  · exact Or.inl (by omega)
  · exact Or.inl (by omega)
  · exact Or.inr ⟨by omega, le_trans h1' h2'⟩

/-- Two permutations of each other that are sorted under a relation which is
antisymmetric on their members coincide. -/
theorem eq_of_perm_of_pairwise {α : Type} {R : α → α → Prop} :
    ∀ {l₁ l₂ : List α}, l₁.Perm l₂ → l₁.Pairwise R → l₂.Pairwise R →
      (∀ a ∈ l₁, ∀ b ∈ l₁, R a b → R b a → a = b) → l₁ = l₂ := by
  intro l₁
  induction l₁ with
  | nil =>
    intro l₂ p _ _ _
    exact (p.symm.eq_nil).symm
  | cons a t ih =>
    intro l₂ p h₁ h₂ hanti
    cases l₂ with
    | nil => exact absurd p.eq_nil (by simp)
    | cons b u =>
      have hb : b ∈ a :: t := p.symm.subset (List.mem_cons_self b u)
      have ha : a ∈ b :: u := p.subset (List.mem_cons_self a t)
      have hab : a = b := by
        rcases List.mem_cons.mp hb with h | h
        · exact h.symm
        · rcases List.mem_cons.mp ha with h' | h'
          · exact h'
          · have r1 : R a b := (List.pairwise_cons.mp h₁).1 b h
            have r2 : R b a := (List.pairwise_cons.mp h₂).1 a h'
            exact hanti a (List.mem_cons_self a t) b (List.mem_cons_of_mem a h)
              r1 r2
      subst hab
      have p' : t.Perm u := p.cons_inv
      have ih' := ih p' (List.pairwise_cons.mp h₁).2 (List.pairwise_cons.mp h₂).2
        (fun x hx y hy =>
          hanti x (List.mem_cons_of_mem a hx) y (List.mem_cons_of_mem a hy))
      rw [ih']

/-- On index-tagged notes drawn from `ns.enum` (whose indices are pairwise
distinct), the stable order `enumLE noteLE` is antisymmetric. -/
theorem enumLE_antisymm_on {ns : List Note} {l : List (Nat × Note)}
    (hp : l.Perm ns.enum) :
    ∀ a ∈ l, ∀ b ∈ l, List.enumLE noteLE a b = true →
      List.enumLE noteLE b a = true → a = b := by
  intro a ha b hb hab hba
  have ha' : a ∈ ns.enum := hp.subset ha
  have hb' : b ∈ ns.enum := hp.subset hb
  have hnd : (ns.enum.map Prod.fst).Nodup := by
    rw [List.enum_map_fst]
    exact List.nodup_range _
  by_cases h1 : noteLE a.2 b.2 = true
  · by_cases h2 : noteLE b.2 a.2 = true
    · simp only [List.enumLE, h1, h2, if_true, decide_eq_true_eq] at hab hba
      exact List.inj_on_of_nodup_map hnd ha' hb' (Nat.le_antisymm hab hba)
    · simp [List.enumLE, h1, h2] at hba
  · simp [List.enumLE, h1] at hab

/-- C7: `sortedNotes` returns a permutation of `notes` that is sorted under
the comparator (by `updatedAt` descending, ties by lower-cased title
ascending, lexicographically); the realized ordering is the stable one:
projecting the unique `enumLE`-sorted permutation of the index-tagged notes
gives exactly `sortedNotes`, and any index-tagged permutation sorted under
that stable total order is equal to it — so no two distinct permutations are
valid for the same input and repeated calls yield the same single sequence.
For Scenario B's notes the result is ids `["2", "1"]`. -/
theorem C7_sortedNotes_total_order :
    (∀ ns : List Note, (sortedNotes ns).Perm ns)
    ∧ (∀ ns : List Note, (sortedNotes ns).Pairwise (fun a b => noteLE a b = true))
    ∧ (∀ ns : List Note,
        (stableKeySort ns).Perm ns.enum
        ∧ (stableKeySort ns).Pairwise
            (fun a b => List.enumLE noteLE a b = true)
        ∧ (stableKeySort ns).map Prod.snd = sortedNotes ns
        ∧ (∀ l' : List (Nat × Note), l'.Perm ns.enum →
            l'.Pairwise (fun a b => List.enumLE noteLE a b = true) →
            l' = stableKeySort ns))
    ∧ (sortedNotes [exNote1, exNote2]).map Note.id = ["2", "1"] := by
  refine ⟨?_, ?_, ?_, ?_⟩
  · intro ns
    exact List.mergeSort_perm ns noteLE
  · intro ns
    exact List.sorted_mergeSort noteLE_trans noteLE_total ns
  · intro ns
    unfold stableKeySort sortedNotes
    refine ⟨List.mergeSort_perm _ _, ?_, ?_, ?_⟩
    · exact List.sorted_mergeSort (List.enumLE_trans noteLE_trans)
        (List.enumLE_total noteLE_total) _
    · exact List.mergeSort_enum
    · intro l' hperm hsorted
      exact eq_of_perm_of_pairwise
        (hperm.trans (List.mergeSort_perm _ _).symm)
        hsorted
        (List.sorted_mergeSort (List.enumLE_trans noteLE_trans)
          (List.enumLE_total noteLE_total) _)
        (enumLE_antisymm_on hperm)
  · simp [sortedNotes, exNote1, exNote2, List.mergeSort, List.splitInTwo,
      List.splitAt, List.splitAt.go, List.merge, noteLE, jsCmp]

/-- C7 witness: for Scenario B's two notes the unique `enumLE`-sorted
permutation of the index-tagged notes is the swapped pair. -/
theorem C7_sortedNotes_total_order_witness :
    [(1, exNote2), (0, exNote1)] = stableKeySort [exNote1, exNote2] := by
  exact (C7_sortedNotes_total_order.2.2.1 [exNote1, exNote2]).2.2.2
    [(1, exNote2), (0, exNote1)] (by decide) (by decide)

/-- C8: a successful `loadNotes()` replaces the entire `notes` collection with
the active backend's list result and leaves `selectedNoteId` unaltered, in
both modes.  In API mode `notes` becomes exactly the fetched array normalized
to the canonical shape (`normalizeList`: id/title/content coerced to strings
with defaults, timestamps to numbers).  In local mode the backend's list is
the persisted blob, which mirrors the in-memory notes (the write-through
invariant every local `_emit` maintains), so `notes` equals the blob's note
array and is left as initialized. -/
theorem C8_loadNotes_replaces :
    (∀ (w : World) (items : List (Option RawNote)) (gI : Nat → String) (now : Int),
        (loadNotes true (Except.ok (ListResp.arr items)) gI now w).1.state.notes
            = normalizeList gI now items
        ∧ (loadNotes true (Except.ok (ListResp.arr items)) gI now w).1.state.selectedNoteId
            = w.state.selectedNoteId
        ∧ (loadNotes true (Except.ok (ListResp.arr items)) gI now w).1.state.loading
            = false
        ∧ (loadNotes true (Except.ok (ListResp.arr items)) gI now w).1.state.error
            = none)
    ∧ (∀ (w : World) (fetch : Except String ListResp) (gI : Nat → String)
        (now : Int) (blob : StoreState),
        w.storage = some blob → blob.notes = w.state.notes →
        (loadNotes false fetch gI now w).1.state.notes = blob.notes
        ∧ (loadNotes false fetch gI now w).1.state.selectedNoteId
            = w.state.selectedNoteId
        ∧ (loadNotes false fetch gI now w).1.state.loading = false
        ∧ (loadNotes false fetch gI now w).1.state.error = none) := by
  constructor
  · intro w items gI now
    have h := (loadNotes_apiOk items gI now w).1
    exact ⟨by simp [h], by simp [h], by simp [h], by simp [h]⟩
  · intro w fetch gI now blob hb hn
    have h := (loadNotes_local fetch gI now w).1
    exact ⟨by simp [h, hn], by simp [h], by simp [h], by simp [h]⟩

/-- C8 witness: an API-mode load of one raw entry (missing title, missing
timestamp) normalizes it with defaults and keeps the selection; a local-mode
load on the example world keeps the blob-mirrored notes and the selection. -/
theorem C8_loadNotes_replaces_witness :
    (loadNotes true
        (Except.ok (ListResp.arr
          [some ⟨some "7", none, some "c", none, some 5⟩, none])) (fun _ => "G")
        42 exWorld).1.state.notes
      = normalizeList (fun _ => "G") 42
          [some ⟨some "7", none, some "c", none, some 5⟩, none]
    ∧ (loadNotes false (Except.ok ListResp.notArray) (fun _ => "G") 42
        exWorld).1.state.notes = exState.notes
    ∧ (loadNotes false (Except.ok ListResp.notArray) (fun _ => "G") 42
        exWorld).1.state.selectedNoteId = exWorld.state.selectedNoteId := by
  refine ⟨?_, ?_, ?_⟩
  · exact (C8_loadNotes_replaces.1 exWorld
      [some ⟨some "7", none, some "c", none, some 5⟩, none] (fun _ => "G") 42).1
  · exact (C8_loadNotes_replaces.2 exWorld (Except.ok ListResp.notArray)
      (fun _ => "G") 42 exState rfl rfl).1
  · exact (C8_loadNotes_replaces.2 exWorld (Except.ok ListResp.notArray)
      (fun _ => "G") 42 exState rfl rfl).2.1

/-- C9: in local mode (no API configured) the persisted blob under the fixed
storage key `notes_store_v1` is rewritten by the final emission of every
action — in particular after every successful mutating action — and then
equals the final state, whose `notes` field is the full canonically-shaped
note array; at startup the blob is read once and spread over the defaults to
initialize the store state. -/
theorem C9_local_persistence :
    (∀ p : Option StoreState, initialState p = p.getD defaultState)
    ∧ (∀ (w : World) (api : Except String RawNote) (genId : String) (now : Int)
        (args : AddArgs),
        (addNote false api genId now args w).1.storage
            = some (addNote false api genId now args w).1.state
        ∧ (addNote false api genId now args w).1.state.notes
            = w.state.notes ++
              [{ id := genId, title := args.title.getD "",
                 content := args.content.getD "", createdAt := now,
                 updatedAt := now }])
    ∧ (∀ (w : World) (api : Except String RawNote) (now : Int) (v : String)
        (upd : UpdateArgs) (ex : Note), v ≠ "" →
        w.state.notes.find? (fun n => n.id == v) = some ex →
        (updateNote false api now (some v) upd w).1.storage
            = some (updateNote false api now (some v) upd w).1.state)
    ∧ (∀ (w : World) (api : Except String Unit) (v : String), v ≠ "" →
        (w.state.notes.any fun n => n.id == v) = true →
        (deleteNote false api (some v) w).1.storage
            = some (deleteNote false api (some v) w).1.state)
    ∧ (∀ (w : World) (fetch : Except String ListResp) (gI : Nat → String)
        (now : Int),
        (loadNotes false fetch gI now w).1.storage
            = some (loadNotes false fetch gI now w).1.state) := by
  refine ⟨?_, ?_, ?_, ?_, ?_⟩
  · intro p
    cases p <;> rfl
  · intro w api genId now args
    have h := addNote_local api genId now args w
    exact ⟨h.2.2, by simp [h.1]⟩
  · intro w api now v upd ex hv hf
    exact (updateNote_localOk api now v upd w ex hv hf).2.2
  · intro w api v hv hany
    exact (deleteNote_ok false api v w hv (fun h => nomatch h) hany).2.2 rfl
  · intro w fetch gI now
    exact (loadNotes_local fetch gI now w).2.2

/-- C9 witness: after deleting note `"1"` and after updating note `"2"` on the
example world in local mode, the storage blob equals the final state. -/
theorem C9_local_persistence_witness :
    (deleteNote false (Except.ok ()) (some "1") exWorld).1.storage
        = some (deleteNote false (Except.ok ()) (some "1") exWorld).1.state
    ∧ (updateNote false (Except.ok ⟨none, none, none, none, none⟩) 9 (some "2")
        ⟨some "t", none⟩ exWorld).1.storage
        = some (updateNote false (Except.ok ⟨none, none, none, none, none⟩) 9
            (some "2") ⟨some "t", none⟩ exWorld).1.state := by
  constructor
  · exact C9_local_persistence.2.2.2.1 exWorld (Except.ok ()) "1" (by decide)
      (by decide)
  · exact C9_local_persistence.2.2.1 exWorld
      (Except.ok ⟨none, none, none, none, none⟩) 9 "2" ⟨some "t", none⟩ exNote2
      (by decide) (by decide)

/-- C10: for every truthy id the promise returned by `deleteNote` never
rejects: it resolves to `true` exactly when the record was removed (the id was
present and, in API mode, the DELETE call succeeded), in which case `notes`
lost exactly the matching record, and to `false` on any caught failure, the
failure being recorded only in `state.error` with `notes` unchanged.
Likewise `addNote` always resolves — to the created, appended note on success
and to `null` exactly on a (caught, API-mode) failure, recorded in
`state.error` with `notes` unchanged. -/
theorem C10_promise_resolution :
    (∀ (useApi : Bool) (apiD : Except String Unit) (v : String) (w : World),
        v ≠ "" →
        (deleteNote useApi apiD (some v) w).2.2
            = Except.ok ((w.state.notes.any fun n => n.id == v)
                && (!useApi || apiD.isOk))
        ∧ (((w.state.notes.any fun n => n.id == v)
              && (!useApi || apiD.isOk)) = true →
            (deleteNote useApi apiD (some v) w).1.state.notes
              = w.state.notes.filter (fun n => !(n.id == v)))
        ∧ (((w.state.notes.any fun n => n.id == v)
              && (!useApi || apiD.isOk)) = false →
            (deleteNote useApi apiD (some v) w).1.state.notes = w.state.notes
            ∧ (deleteNote useApi apiD (some v) w).1.state.error ≠ none))
    ∧ (∀ (useApi : Bool) (api : Except String RawNote) (genId : String)
        (now : Int) (args : AddArgs) (w : World),
        (addNote useApi api genId now args w).2.2.isOk = true
        ∧ ((addNote useApi api genId now args w).2.2 = Except.ok none ↔
            (useApi = true ∧ api.isOk = false))
        ∧ (∀ c : Note, (addNote useApi api genId now args w).2.2
              = Except.ok (some c) →
            (addNote useApi api genId now args w).1.state.notes
              = w.state.notes ++ [c])
        ∧ ((addNote useApi api genId now args w).2.2 = Except.ok none →
            (addNote useApi api genId now args w).1.state.notes = w.state.notes
            ∧ (addNote useApi api genId now args w).1.state.error ≠ none)) := by
  constructor
  · intro useApi apiD v w hv
    cases hany : (w.state.notes.any fun n => n.id == v) with
    | false =>
      have h := deleteNote_notFound useApi apiD v w hv hany
      refine ⟨by simp [h.2.1], by simp, ?_⟩
      intro hfail
      exact ⟨by simp [h.1], by simp [h.1]⟩
    | true =>
      cases useApi with
      | false =>
        have h := deleteNote_ok false apiD v w hv (fun hc => nomatch hc) hany
        refine ⟨by simp [h.2.1], fun hc => by simp [h.1], by simp⟩
      | true =>
        cases hm : apiD with
        | ok u =>
          cases u
          have h := deleteNote_ok true (Except.ok ()) v w hv (fun _ => rfl) hany
          refine ⟨by simp [h.2.1, Except.isOk, Except.toBool], fun hc => by simp [h.1], ?_⟩
          intro hfail
          simp [Except.isOk, Except.toBool] at hfail
        | error m =>
          have h := deleteNote_apiFail (Except.error m) m v w hv rfl hany
          refine ⟨by simp [h.2, Except.isOk, Except.toBool], ?_, ?_⟩
          · intro hc
            simp [Except.isOk, Except.toBool] at hc
          · intro hfail
            exact ⟨by simp [h.1], by simp [h.1]⟩
  · intro useApi api genId now args w
    cases useApi with
    | false =>
      have h := addNote_local api genId now args w
      refine ⟨by simp [h.2.1, Except.isOk, Except.toBool], by simp [h.2.1], ?_, by simp [h.2.1]⟩
      intro c hc
      rw [h.2.1] at hc
      simp at hc
      subst hc
      simp [h.1]
    | true =>
      cases hm : api with
      | ok data =>
        have h := addNote_apiOk data genId now args w
        refine ⟨by simp [h.2, Except.isOk, Except.toBool], by simp [h.2, Except.isOk, Except.toBool], ?_,
          by simp [h.2]⟩
        intro c hc
        rw [h.2] at hc
        simp at hc
        subst hc
        simp [h.1]
      | error m =>
        have h := addNote_apiFail (Except.error m) m genId now args w rfl
        refine ⟨by simp [h.2, Except.isOk, Except.toBool], by simp [h.2, Except.isOk, Except.toBool], ?_, ?_⟩
        · intro c hc
          rw [h.2] at hc
          simp at hc
        · intro hc
          exact ⟨by simp [h.1], by simp [h.1]⟩

/-- C10 witness: on the example world, deleting present id `"1"` locally
resolves to `true`; deleting it in API mode under a failing DELETE resolves to
`false` with the notes unchanged; `addNote` with a failing API create resolves
to `null`. -/
theorem C10_promise_resolution_witness :
    (deleteNote false (Except.ok ()) (some "1") exWorld).2.2
        = Except.ok ((exWorld.state.notes.any fun n => n.id == "1")
            && (!false || (Except.ok () : Except String Unit).isOk))
    ∧ ((deleteNote true (Except.error "boom") (some "1") exWorld).2.2
        = Except.ok ((exWorld.state.notes.any fun n => n.id == "1")
            && (!true || (Except.error "boom" : Except String Unit).isOk)))
    ∧ ((addNote true (Except.error "boom") "N" 0 ⟨none, none⟩ exWorld).2.2
        = Except.ok none ↔
        (true = true ∧ (Except.error "boom" : Except String RawNote).isOk
          = false)) := by
  refine ⟨?_, ?_, ?_⟩
  · exact (C10_promise_resolution.1 false (Except.ok ()) "1" exWorld
      (by decide)).1
  · exact (C10_promise_resolution.1 true (Except.error "boom") "1" exWorld
      (by decide)).1
  · exact (C10_promise_resolution.2 true (Except.error "boom") "N" 0
      ⟨none, none⟩ exWorld).2.1

/-- C3 witness: the falsy-id theorem applied at `id = none` (JS `null`) on the
example world. -/
theorem C3_falsy_id_fails_before_io_witness :
    falsyId none = true
    ∧ updateNote true (Except.ok ⟨none, none, none, none, none⟩) 0 none {} exWorld
        = (exWorld, [], Except.error "updateNote requires an id")
    ∧ deleteNote true (Except.ok ()) none exWorld
        = (exWorld, [], Except.error "deleteNote requires an id") := by
  refine ⟨by decide, ?_, ?_⟩
  · exact (C3_falsy_id_fails_before_io true (Except.ok ⟨none, none, none, none, none⟩)
      (Except.ok ()) 0 {} none exWorld (by decide)).1
  · exact (C3_falsy_id_fails_before_io true (Except.ok ⟨none, none, none, none, none⟩)
      (Except.ok ()) 0 {} none exWorld (by decide)).2

end NotesApp
